import Mathlib

/-!
# Verification of the xcode-mcp-server result extraction and correlation pipeline

Shallow embedding of the build/run/test result extraction pipeline of the
`xcode-mcp-server` repository, together with theorems settling the claims of
the specification.  Each definition carries a reference to the Python source
it embeds (file and function).  OS interactions (filesystem listings, clock,
the `xcresulttool` CLI, the AppleScript bridge, the Python `re` module) are
modelled as explicit inputs: a definition consumes the values those external
collaborators would have produced.
-/

namespace XcodeMCP

/-! ## Python string primitives

Helpers mirroring the CPython string operations used by the source
(`str.strip`, `in` substring test, `str.lower`, `str.split`). -/

/-- Characters considered whitespace by CPython's `str.strip()`. -/
def pyIsSpace (c : Char) : Bool :=
  c = ' ' || c = '\t' || c = '\n' || c = '\r' || c = '\x0b' || c = '\x0c'

/-- `str.strip()`: remove leading and trailing whitespace. -/
def pyStrip (s : String) : String :=
  ⟨((s.data.dropWhile pyIsSpace).reverse.dropWhile pyIsSpace).reverse⟩

/-- Substring containment on character lists (`needle` occurs in `hay`). -/
def listContainsSub (needle : List Char) : List Char → Bool
  | [] => needle.isPrefixOf []
  | c :: rest => needle.isPrefixOf (c :: rest) || listContainsSub needle rest

/-- Python's `needle in hay` substring test. -/
def strContains (hay needle : String) : Bool :=
  listContainsSub needle.data hay.data

/-- Python's `xs[:n]` for a non-negative or negative bound `n`. -/
def pySliceTo (xs : List α) (n : Int) : List α :=
  if n < 0 then xs.take (max ((xs.length : Int) + n) 0).toNat
  else xs.take n.toNat

/-- `str.lower()` (character-wise, which agrees with CPython on the ASCII
logs handled here). -/
def pyLower (s : String) : String := ⟨s.data.map Char.toLower⟩

/-- `str.startswith(pre)`. -/
def strStartsWith (s pre : String) : Bool := pre.data.isPrefixOf s.data

/-- `str.endswith(suf)`. -/
def strEndsWith (s suf : String) : Bool := suf.data.isSuffixOf s.data

/-- Worker for `pySplit`: split `rem` at each non-overlapping occurrence of
the non-empty separator, left to right; `cur` is the reversed current
segment and `fuel` bounds the recursion (one unit per consumed character). -/
def splitChars (sep : List Char) : Nat → List Char → List Char → List (List Char)
  | _, [], cur => [cur.reverse]
  | 0, rem, cur => [cur.reverse ++ rem]
  | fuel + 1, c :: rest, cur =>
      if sep.isPrefixOf (c :: rest) then
        cur.reverse :: splitChars sep fuel ((c :: rest).drop sep.length) []
      else splitChars sep fuel rest (c :: cur)

/-- `str.split(sep)` for a non-empty separator. -/
def pySplit (s sep : String) : List String :=
  (splitChars sep.data s.data.length s.data []).map (fun l => ⟨l⟩)

/-! ## Artifact locator: `wait_for_xcresult_after_timestamp`

`src/xcode_mcp_server/utils/xcresult.py`, lines 227-278.  The loop polls the
filesystem once per second until `timeout_seconds` elapse.  Each iteration
observes either no candidate artifact (`find_xcresult_for_project` returned
`None` or the path vanished), or one candidate together with the creation
and modification times read by `os.path.getctime` / `os.path.getmtime`.
A trace of such observations, one per loop iteration before the timeout,
is the input of the embedding; timestamps are modelled as integers. -/

/-- What one iteration of the polling loop observes. -/
inductive PollObs where
  /-- `find_xcresult_for_project` returned `None`, or the path did not exist. -/
  | noFile : PollObs
  /-- A candidate path together with its creation and modification times. -/
  | file (path : String) (ctime mtime : Int) : PollObs
deriving DecidableEq

/-- `wait_for_xcresult_after_timestamp`: accept the first observed candidate
whose creation time AND modification time are both at or after
`startTimestamp`; reject (and keep polling past) every other candidate;
return `none` when the trace of iterations is exhausted (timeout). -/
def wait_for_xcresult_after_timestamp (startTimestamp : Int) :
    List PollObs → Option String
  | [] => none
  | PollObs.noFile :: rest => wait_for_xcresult_after_timestamp startTimestamp rest
  | PollObs.file path ctime mtime :: rest =>
      if startTimestamp ≤ ctime ∧ startTimestamp ≤ mtime then some path
      else wait_for_xcresult_after_timestamp startTimestamp rest

/-! ## Artifact locator: single-scan functions

`find_xcresult_for_project` (lines 186-224) and `find_xcresult_bundle`
(lines 294-336) of `src/xcode_mcp_server/utils/xcresult.py`.  The DerivedData
root is modelled as the list returned by `os.listdir`, in listing order; each
subdirectory carries the contents of its `Logs/Launch` and `Logs/Test`
directories (`none` models `os.path.exists` returning `False`). -/

/-- A file inside a logs directory: its name and modification time. -/
structure FileEntry where
  name : String
  mtime : Int
deriving DecidableEq

/-- One subdirectory of the DerivedData root. -/
structure DerivedDir where
  /-- Subdirectory name, e.g. `ProjectName-randomhash`. -/
  name : String
  /-- Contents of `<dir>/Logs/Launch`, or `none` if that path does not exist. -/
  launchLogs : Option (List FileEntry)
  /-- Contents of `<dir>/Logs/Test`, or `none` if that path does not exist. -/
  testLogs : Option (List FileEntry)
deriving DecidableEq

/-- The `(mtime, full_path)` pairs collected for the `.xcresult` files of one
logs directory, mirroring the list built before `sort(reverse=True)`. -/
def xcresultEntries (dirName : String) (files : List FileEntry) :
    List (Int × String) :=
  (files.filter (fun f => strEndsWith f.name ".xcresult")).map
    (fun f => (f.mtime, dirName ++ "/" ++ f.name))

/-- `xcresult_files.sort(reverse=True); xcresult_files[0]`: the maximum pair
in lexicographic tuple order (mtime first, path breaking ties). -/
def newestEntry : List (Int × String) → Option (Int × String)
  | [] => none
  | e :: rest =>
      match newestEntry rest with
      | none => some e
      | some m => if m.1 > e.1 ∨ (m.1 = e.1 ∧ e.2 < m.2) then some m else some e

/-- Shared body of the two single-scan locators: walk the DerivedData listing
in order; at the FIRST subdirectory whose name starts with
`projectName ++ "-"`, whose selected logs directory exists and which holds at
least one `.xcresult` file, return the newest file there.  `pickLogs`
selects `Logs/Launch` or `Logs/Test`. -/
def findFirstMatch (projectName : String)
    (pickLogs : DerivedDir → Option (List FileEntry)) :
    List DerivedDir → Option String
  | [] => none
  | d :: rest =>
      if strStartsWith d.name (projectName ++ "-") then
        match pickLogs d with
        | some files =>
            match newestEntry (xcresultEntries d.name files) with
            | some e => some e.2
            | none => findFirstMatch projectName pickLogs rest
        | none => findFirstMatch projectName pickLogs rest
      else findFirstMatch projectName pickLogs rest

/-- `find_xcresult_for_project`: scans `Logs/Launch` directories. -/
def find_xcresult_for_project (projectName : String)
    (derivedData : List DerivedDir) : Option String :=
  findFirstMatch projectName (fun d => d.launchLogs) derivedData

/-- `find_xcresult_bundle`: scans `Logs/Test` directories. -/
def find_xcresult_bundle (projectName : String)
    (derivedData : List DerivedDir) : Option String :=
  findFirstMatch projectName (fun d => d.testLogs) derivedData

/-- The set of `(mtime, path)` pairs over ALL matching subdirectories, the
pool from which the spec says the globally newest artifact must be picked. -/
def allMatchingEntries (projectName : String)
    (pickLogs : DerivedDir → Option (List FileEntry))
    (derivedData : List DerivedDir) : List (Int × String) :=
  derivedData.foldr
    (fun d acc =>
      if strStartsWith d.name (projectName ++ "-") then
        (match pickLogs d with
         | some files => xcresultEntries d.name files
         | none => []) ++ acc
      else acc) []

/-! ## `run_project` result handling

`src/xcode_mcp_server/tools/run_project.py`.  The AppleScript embedded in
`run_project` (lines 67-134) polls `completed of actionResult` for up to
`wait_seconds` iterations and returns `"done|" & (status of actionResult as
text)` when it observes completion, `"FAIL|" & (actionResult as text)`
otherwise.  The Python side (lines 149-183) parses this reply and decides
which message to return when no timestamp-valid xcresult was found. -/

/-- The reply the embedded AppleScript produces (source lines 91-99 and
123-132): `"done|<status>"` when the poll observed completion, otherwise
`"FAIL|<raw>"`. -/
def appleScriptRunReply (completedObserved : Bool) (statusText : String) :
    String :=
  if completedObserved then "done|" ++ statusText else "FAIL|" ++ statusText

/-- Outcome of the Python code after the AppleScript round-trip. -/
inductive RunProjectStep where
  /-- `raise XCodeMCPError(...)` on malformed reply. -/
  | raisedError (msg : String)
  /-- A status-only message returned to the caller. -/
  | returned (msg : String)
  /-- Control proceeds to console extraction for this xcresult path. -/
  | extractLogs (path : String) (completed : Bool) (finalStatus : String)
deriving DecidableEq

/-- `run_project` lines 149-176: split the reply on `"|"`, derive
`completed = parts[0].strip().lower() == "true"` and
`final_status = parts[1].strip()`; when no xcresult was found return the
completed-without-logs message if `completed`, else the still-running
message; otherwise proceed to extraction. -/
def run_project_after_applescript (output : String) (waitSeconds : Nat)
    (xcresultPath : Option String) : RunProjectStep :=
  let parts := pySplit output "|"
  if parts.length ≠ 2 then
    RunProjectStep.raisedError ("Unexpected output format: " ++ output)
  else
    let completed := pyLower (pyStrip (parts.getD 0 "")) = "true"
    let finalStatus := pyStrip (parts.getD 1 "")
    match xcresultPath with
    | none =>
        if completed then
          RunProjectStep.returned ("Run completed with status: " ++ finalStatus
            ++ ". Could not find xcresult file (modified after start time) to extract console logs.")
        else
          RunProjectStep.returned ("Still running after " ++ toString waitSeconds
            ++ " seconds (status: " ++ finalStatus
            ++ "). Try `get_runtime_output` after process exits.")
    | some p => RunProjectStep.extractLogs p completed finalStatus

/-! ## Console extraction: CLI retry phase

`extract_console_logs_from_xcresult`, `src/xcode_mcp_server/utils/xcresult.py`
lines 41-76.  Each attempt invokes `xcrun xcresulttool`; the outcome of the
`attempt`-th invocation is supplied by the environment. -/

/-- Outcome of one `subprocess.run` invocation of the extraction CLI. -/
inductive CLIOutcome where
  /-- Exit code 0; carries stdout. -/
  | success (stdout : String)
  /-- Non-zero exit code; carries stderr. -/
  | failure (stderr : String)
  /-- `subprocess.TimeoutExpired`. -/
  | timeout
  /-- Any other exception, carrying its text. -/
  | exn (msg : String)
deriving DecidableEq

/-- Result of the retry loop: either an early `(False, message)` return, or
a break out of the loop with the stdout of the successful attempt. -/
inductive CliPhaseResult where
  | earlyFailure (msg : String)
  | proceed (stdout : String) (attempt : Nat)
deriving DecidableEq

/-- One pass of `for attempt in range(max_retries)` with `max_retries = 7`:
a non-zero exit retries only when stderr contains `"root ID is missing"` and
`attempt < max_retries - 1`; `TimeoutExpired` and any other exception retry
whenever `attempt < max_retries - 1`; success breaks out of the loop.
`remaining` is the number of iterations `range(7)` still has to yield
(`remaining = 7 - attempt`); the `remaining = 0` case is dead code because
the final iteration always returns or breaks. -/
def cliRetryGo (outcomes : Nat → CLIOutcome) :
    Nat → Nat → CliPhaseResult
  | _, 0 => CliPhaseResult.earlyFailure ""
  | attempt, remaining + 1 =>
      match outcomes attempt with
      | CLIOutcome.success out => CliPhaseResult.proceed out attempt
      | CLIOutcome.failure stderr =>
          if strContains stderr "root ID is missing" ∧ attempt < 6 then
            cliRetryGo outcomes (attempt + 1) remaining
          else
            CliPhaseResult.earlyFailure
              ("Failed to extract console logs: " ++ stderr)
      | CLIOutcome.timeout =>
          if attempt < 6 then cliRetryGo outcomes (attempt + 1) remaining
          else CliPhaseResult.earlyFailure "Timeout extracting console logs"
      | CLIOutcome.exn e =>
          if attempt < 6 then cliRetryGo outcomes (attempt + 1) remaining
          else CliPhaseResult.earlyFailure ("Error extracting console logs: " ++ e)

/-- The full retry loop: seven attempts starting at attempt 0. -/
def cliRetryPhase (outcomes : Nat → CLIOutcome) : CliPhaseResult :=
  cliRetryGo outcomes 0 7

/-- An outcome on which the loop body executes `continue` when further
attempts remain: a non-zero exit carrying the `"root ID is missing"`
signature, a CLI timeout, or any other exception. -/
def retriableOutcome : CLIOutcome → Prop
  | CLIOutcome.success _ => False
  | CLIOutcome.failure stderr => strContains stderr "root ID is missing" = true
  | CLIOutcome.timeout => True
  | CLIOutcome.exn _ => True

instance : DecidablePred retriableOutcome := fun o => by
  cases o <;> simp [retriableOutcome] <;> infer_instance

/-! ## Console extraction: JSON processing phase

`extract_console_logs_from_xcresult`, lines 78-109.  The JSON items have
already been decoded; `items` holds the raw `content` field of each item in
declared order.  Because `run_project` calls this function with its
positional arguments transposed, the `max_lines` and `regex_filter`
parameters can receive values of the wrong dynamic type, so the parameters
are modelled as dynamically typed Python values and the dynamic type errors
CPython would raise are modelled explicitly.  The whole phase runs inside
`try: ... except json.JSONDecodeError: ... except Exception as e: ...`, so
no exception raised inside it ever escapes. -/

/-- A dynamically typed Python value (the shapes relevant here). -/
inductive PyVal where
  | vInt (n : Int)
  | vStr (s : String)
  | vNone
deriving DecidableEq

/-- Python truthiness for the values above. -/
def pyTruthy : PyVal → Bool
  | PyVal.vInt n => n ≠ 0
  | PyVal.vStr s => s ≠ ""
  | PyVal.vNone => false

/-- An exception raised while processing (all derive `Exception`, so all are
caught by the blanket handler at line 108). -/
inductive PyExn where
  /-- `InvalidParameterError`, raised at line 93 for an invalid regex. -/
  | invalidParameter (msg : String)
  /-- CPython `AttributeError` (e.g. `.strip()` on an `int`). -/
  | attributeError (msg : String)
  /-- CPython `TypeError` (e.g. `int > None`). -/
  | typeError (msg : String)
deriving DecidableEq, Repr

/-- `str(e)` for the exceptions above (`XCodeMCPError.__init__` stores the
message as the single argument). -/
def pyExnText : PyExn → String
  | PyExn.invalidParameter m => m
  | PyExn.attributeError m => m
  | PyExn.typeError m => m

/-- The Python `re` module as an external collaborator:
`search pattern s` is `re.search(pattern, s) is not None`, or an `re.error`
message for a syntactically invalid pattern. -/
def ReSearch : Type := String → String → Except String Bool

/-- Lines 87-95 for one non-empty `content` string: decide whether it is
appended to `console_lines`.  Models
`if regex_filter and regex_filter.strip(): try: re.search ... except
re.error as e: raise InvalidParameterError(...)` with CPython dynamic-type
behaviour when `regex_filter` is not a string. -/
def filterStep (search : ReSearch) (regexFilter : PyVal) (content : String) :
    Except PyExn Bool :=
  if pyTruthy regexFilter then
    match regexFilter with
    | PyVal.vStr pat =>
        if pyStrip pat ≠ "" then
          match search pat content with
          | Except.ok b => Except.ok b
          | Except.error e =>
              Except.error (PyExn.invalidParameter ("Invalid regex pattern: " ++ e))
        else Except.ok true
    | PyVal.vInt _ =>
        Except.error (PyExn.attributeError "'int' object has no attribute 'strip'")
    | PyVal.vNone => Except.ok true
  else Except.ok true

/-- Lines 83-95: build `console_lines` by stripping each item's content,
skipping empty contents, and applying the filter decision to the rest. -/
def buildConsoleLines (search : ReSearch) (regexFilter : PyVal) :
    List String → Except PyExn (List String)
  | [] => Except.ok []
  | item :: rest =>
      let content := pyStrip item
      if content = "" then buildConsoleLines search regexFilter rest
      else do
        let keep ← filterStep search regexFilter content
        let tailLines ← buildConsoleLines search regexFilter rest
        Except.ok (if keep then content :: tailLines else tailLines)

/-- Lines 97-99: `if len(console_lines) > max_lines: console_lines =
console_lines[:max_lines]`, with the CPython `TypeError` when `max_lines`
is not an `int`. -/
def applyMaxLines (lines : List String) (maxLines : PyVal) :
    Except PyExn (List String) :=
  match maxLines with
  | PyVal.vInt n =>
      Except.ok (if (lines.length : Int) > n then pySliceTo lines n else lines)
  | PyVal.vNone =>
      Except.error (PyExn.typeError
        "'>' not supported between instances of 'int' and 'NoneType'")
  | PyVal.vStr _ =>
      Except.error (PyExn.typeError
        "'>' not supported between instances of 'int' and 'str'")

/-- Lines 78-109: the processing phase.  Parameter order mirrors the source
signature `(xcresult_path, max_lines, regex_filter)`; the path itself plays
no role here.  Every exception raised inside the `try` block is converted by
the handlers at lines 106-109 into a `(False, message)` return value, so the
outer `Except` is always `ok` — the type records that nothing escapes. -/
def processConsole (items : List String) (maxLines regexFilter : PyVal)
    (search : ReSearch) : Except PyExn (Bool × String) :=
  match (do
      let ls ← buildConsoleLines search regexFilter items
      applyMaxLines ls maxLines : Except PyExn (List String)) with
  | Except.error e =>
      Except.ok (false, "Error processing console logs: " ++ pyExnText e)
  | Except.ok [] => Except.ok (true, "")
  | Except.ok ls => Except.ok (true, String.intercalate "\n" ls)

/-- The call `extract_console_logs_from_xcresult(xcresult_path,
regex_filter, max_lines)` at `run_project.py` line 179: the second
positional argument (`regex_filter`, an `Optional[str]`) binds the
`max_lines` parameter and the third (`max_lines`, an `int`) binds the
`regex_filter` parameter. -/
def run_project_invoke_extract (items : List String)
    (callerRegexFilter : PyVal) (callerMaxLines : Int) (search : ReSearch) :
    Except PyExn (Bool × String) :=
  processConsole items callerRegexFilter (PyVal.vInt callerMaxLines) search

/-! ## Build log classifier: `extract_build_errors_and_warnings`

`src/xcode_mcp_server/utils/xcresult.py`, lines 112-183.  The module globals
`BUILD_WARNINGS_ENABLED` / `BUILD_WARNINGS_FORCED` are passed explicitly. -/

/-- Lines 126-131: resolve the effective `show_warnings` flag: a forced
command-line setting wins, else the call parameter, else the default. -/
def resolveShowWarnings (warningsForced : Option Bool)
    (includeWarnings : Option Bool) (warningsEnabled : Bool) : Bool :=
  match warningsForced with
  | some f => f
  | none =>
      match includeWarnings with
      | some w => w
      | none => warningsEnabled

/-- Lines 133-143: the single classification pass.  A line containing
`"error"` case-insensitively is an error line; otherwise, when warnings are
shown, a line containing `"warning"` case-insensitively is a warning line. -/
def classifyBuildLines (showWarnings : Bool) (lines : List String) :
    List String × List String :=
  (lines.filter (fun l => strContains (pyLower l) "error"),
   lines.filter (fun l =>
     !strContains (pyLower l) "error"
       && (showWarnings && strContains (pyLower l) "warning")))

/-- Lines 162-183: assemble the returned message from the TOTAL counts, the
displayed-count figures and the joined displayed lines. -/
def buildCountMessage (totalErrors totalWarnings displayedErrors
    displayedWarnings : Nat) (importantList : String) : String :=
  if totalErrors ≠ 0 ∧ totalWarnings ≠ 0 then
    let base := "Build failed with " ++ toString totalErrors
      ++ " error(s) and " ++ toString totalWarnings ++ " warning(s)."
    let msg :=
      if totalErrors + totalWarnings > 25 then
        if displayedWarnings = 0 then
          base ++ " Showing first " ++ toString displayedErrors ++ " errors."
        else
          base ++ " Showing " ++ toString displayedErrors
            ++ " error(s) and first " ++ toString displayedWarnings
            ++ " warning(s)."
      else base
    msg ++ "\n" ++ importantList
  else if totalErrors ≠ 0 then
    let base := "Build failed with " ++ toString totalErrors ++ " error(s)."
    let msg := if totalErrors > 25 then base ++ " Showing first 25 errors." else base
    msg ++ "\n" ++ importantList
  else if totalWarnings ≠ 0 then
    let base := "Build completed with " ++ toString totalWarnings ++ " warning(s)."
    let msg := if totalWarnings > 25 then base ++ " Showing first 25 warnings." else base
    msg ++ "\n" ++ importantList
  else
    "Build failed (no specific errors or warnings found in output)"

/-- `extract_build_errors_and_warnings`: classify, cap the combined list at
25 lines (errors first), and build the message from the true totals. -/
def extract_build_errors_and_warnings (buildLog : String)
    (includeWarnings : Option Bool) (warningsForced : Option Bool)
    (warningsEnabled : Bool) : String :=
  let showWarnings := resolveShowWarnings warningsForced includeWarnings warningsEnabled
  let (errorLines, warningLines) := classifyBuildLines showWarnings (pySplit buildLog "\n")
  let totalErrors := errorLines.length
  let totalWarnings := warningLines.length
  let importantLines := errorLines ++ warningLines
  let displayedErrors := min totalErrors 25
  let displayedWarnings :=
    if totalErrors ≥ 25 then 0 else min totalWarnings (25 - totalErrors)
  let importantLines :=
    if importantLines.length > 25 then importantLines.take 25 else importantLines
  buildCountMessage totalErrors totalWarnings displayedErrors displayedWarnings
    (String.intercalate "\n" importantLines)

/-- The lines actually displayed for a given log and effective warnings
setting (the post-truncation `important_lines`). -/
def displayedBuildLines (buildLog : String) (showWarnings : Bool) :
    List String :=
  let (errorLines, warningLines) := classifyBuildLines showWarnings (pySplit buildLog "\n")
  (errorLines ++ warningLines).take 25

/-! ## A small regular-expression engine

The failure scanner of `__main__.py` uses `re.search` with a handful of
patterns built from literals, character classes (`\w`, `\s`, `\d`, `.`,
`[\w/\-\.]`), the quantifiers `+`, `*`, `?` (on single-character classes)
and numbered capturing groups.  The engine below implements exactly those
constructs with CPython semantics: leftmost match, greedy quantifiers,
backtracking in priority order. -/

/-- Regular expressions over the constructs used by the source patterns. -/
inductive RE where
  /-- A literal character sequence. -/
  | lit (s : List Char)
  /-- A single character of a class. -/
  | cls (p : Char → Bool)
  /-- `r?`, greedy. -/
  | opt (a : RE)
  /-- `c+` for a character class, greedy. -/
  | plus (p : Char → Bool)
  /-- `c*` for a character class, greedy. -/
  | star (p : Char → Bool)
  | seq (a b : RE)
  /-- Numbered capturing group. -/
  | group (i : Nat) (a : RE)

/-- Concatenation of a pattern list. -/
def RE.cat : List RE → RE
  | [] => RE.lit []
  | [r] => r
  | r :: rest => RE.seq r (RE.cat rest)

/-- Captured groups: group number paired with captured characters. -/
abbrev Caps := List (Nat × List Char)

/-- All ways a character-class quantifier can consume a prefix, greedy
(longest) first; `minLen` is 1 for `+` and 0 for `*`. -/
def clsSplits (p : Char → Bool) (minLen : Nat) (s : List Char) :
    List (List Char) :=
  let k := (s.takeWhile p).length
  (List.range (k + 1)).reverse.filterMap
    (fun n => if minLen ≤ n then some (s.drop n) else none)

/-- All matches of `r` at the head of `s`: pairs of captures and remaining
input, in CPython backtracking priority order (greedy alternatives first,
earlier subpatterns varying slowest). -/
def matchRE : RE → List Char → List (Caps × List Char)
  | RE.lit l, s => if l.isPrefixOf s then [([], s.drop l.length)] else []
  | RE.cls _, [] => []
  | RE.cls p, c :: rest => if p c then [([], rest)] else []
  | RE.opt a, s => matchRE a s ++ [([], s)]
  | RE.plus p, s => (clsSplits p 1 s).map (fun rest => ([], rest))
  | RE.star p, s => (clsSplits p 0 s).map (fun rest => ([], rest))
  | RE.seq a b, s =>
      (matchRE a s).flatMap (fun m =>
        (matchRE b m.2).map (fun m2 => (m.1 ++ m2.1, m2.2)))
  | RE.group i a, s =>
      (matchRE a s).map (fun m =>
        ((i, s.take (s.length - m.2.length)) :: m.1, m.2))

/-- The non-empty suffixes of `s` followed by `[]`: the candidate match
start positions, leftmost first. -/
def suffixes : List Char → List (List Char)
  | [] => [[]]
  | c :: rest => (c :: rest) :: suffixes rest

/-- `re.search(r, s)`: captures of the first match at the leftmost matching
position, or `none`. -/
def searchRE (r : RE) (s : String) : Option Caps :=
  (suffixes s.data).findSome? (fun suf => (matchRE r suf).head?.map Prod.fst)

/-- `match.group(i)` (empty string when absent, which never occurs for the
patterns used here). -/
def capGet (caps : Caps) (i : Nat) : String :=
  match caps.find? (fun c => c.1 = i) with
  | some c => ⟨c.2⟩
  | none => ""

/-! Character classes (the source's logs are ASCII; `\w` is modelled as
ASCII word characters). -/

/-- `\w`. -/
def wordChar (c : Char) : Bool := c.isAlphanum || c = '_'

/-- `\s` (CPython whitespace). -/
def spaceChar (c : Char) : Bool := pyIsSpace c

/-- `\d`. -/
def digitChar (c : Char) : Bool := c.isDigit

/-- `[\w/\-\.]`, the file-path class. -/
def fileChar (c : Char) : Bool := wordChar c || c = '/' || c = '-' || c = '.'

/-- `.` (anything but a newline). -/
def dotChar (c : Char) : Bool := c ≠ '\n'

/-- The single-quote character. -/
def squote : Char := Char.ofNat 39

/-! ## Test failure extraction: `extract_test_failures_from_log`

`src/xcode_mcp_server/__main__.py`, lines 2040-2265. -/

/-- Pattern 1: `Test Case '?-?\[(\w+)\s+(\w+)\]'?\s+failed`. -/
def reTestCaseFailed : RE := RE.cat [
  RE.lit "Test Case ".data, RE.opt (RE.cls (· = squote)),
  RE.opt (RE.cls (· = '-')), RE.lit "[".data,
  RE.group 1 (RE.plus wordChar), RE.plus spaceChar,
  RE.group 2 (RE.plus wordChar), RE.lit "]".data,
  RE.opt (RE.cls (· = squote)), RE.plus spaceChar, RE.lit "failed".data]

/-- Pattern 2:
`([\w/\-\.]+\.swift):(\d+):\s*error:\s*-\[(\w+)\s+(\w+)\]\s*:\s*(.+)`. -/
def reCompilerError : RE := RE.cat [
  RE.group 1 (RE.seq (RE.plus fileChar) (RE.lit ".swift".data)),
  RE.lit ":".data, RE.group 2 (RE.plus digitChar), RE.lit ":".data,
  RE.star spaceChar, RE.lit "error:".data, RE.star spaceChar,
  RE.lit "-[".data, RE.group 3 (RE.plus wordChar), RE.plus spaceChar,
  RE.group 4 (RE.plus wordChar), RE.lit "]".data, RE.star spaceChar,
  RE.lit ":".data, RE.star spaceChar, RE.group 5 (RE.plus dotChar)]

/-- Pattern 3, first form: `❌\s+([\w/\-\.]+\.swift):(\d+):\s*(.+)`. -/
def reMarkerFile : RE := RE.cat [
  RE.lit "❌".data, RE.plus spaceChar,
  RE.group 1 (RE.seq (RE.plus fileChar) (RE.lit ".swift".data)),
  RE.lit ":".data, RE.group 2 (RE.plus digitChar), RE.lit ":".data,
  RE.star spaceChar, RE.group 3 (RE.plus dotChar)]

/-- Pattern 3, alternate form: `❌\s+(.+)`. -/
def reMarkerAny : RE := RE.cat [
  RE.lit "❌".data, RE.plus spaceChar, RE.group 1 (RE.plus dotChar)]

/-- Test-name pattern: `-\[(\w+)\s+(\w+)\]`. -/
def reName : RE := RE.cat [
  RE.lit "-[".data, RE.group 1 (RE.plus wordChar), RE.plus spaceChar,
  RE.group 2 (RE.plus wordChar), RE.lit "]".data]

/-- Pattern 4: `Test Suite '(\w+)' failed`. -/
def reSuiteFailed : RE := RE.cat [
  RE.lit "Test Suite ".data, RE.lit [squote],
  RE.group 1 (RE.plus wordChar), RE.lit [squote], RE.lit " failed".data]

/-- Pattern 5 guard: `XCTAssert\w+\s+failed`. -/
def reXCTAssertFailed : RE := RE.cat [
  RE.lit "XCTAssert".data, RE.plus wordChar, RE.plus spaceChar,
  RE.lit "failed".data]

/-- File-location pattern: `([\w/\-\.]+\.swift):(\d+)`. -/
def reFileLine : RE := RE.cat [
  RE.group 1 (RE.seq (RE.plus fileChar) (RE.lit ".swift".data)),
  RE.lit ":".data, RE.group 2 (RE.plus digitChar)]

/-- Summary pattern: `Executed (\d+) tests?, with (\d+) failures?`. -/
def reSummary : RE := RE.cat [
  RE.lit "Executed ".data, RE.group 1 (RE.plus digitChar),
  RE.lit " test".data, RE.opt (RE.cls (· = 's')), RE.lit ", with ".data,
  RE.group 2 (RE.plus digitChar), RE.lit " failure".data,
  RE.opt (RE.cls (· = 's'))]

/-- One extracted failure record (the dict appended to `failures`). -/
structure TestFailureRec where
  test_class : String
  test_method : String
  message : String
  file_path : String
  line_number : String
deriving DecidableEq, Repr

/-- `range(lo, hi)` as a list of indices. -/
def lineRange (lo hi : Nat) : List Nat := List.range' lo (hi - lo)

/-- Pattern 1 body (lines 2066-2101), after the branch guard: parse the
header, pull the message from the first of the next ≤4 lines that mentions
`XCTAssert` or `failed`, and the file location from the first of those lines
where the file pattern matches. -/
def p1Candidate (lines : List String) (i : Nat) :
    Option (String × TestFailureRec) :=
  match searchRE reTestCaseFailed (lines.getD i "") with
  | none => none
  | some caps =>
      let cls := capGet caps 1
      let meth := capGet caps 2
      let window := (lineRange (i + 1) (min (i + 5) lines.length)).map
        (fun j => lines.getD j "")
      let msg := match window.find? (fun nl =>
          strContains nl "XCTAssert" || strContains (pyLower nl) "failed") with
        | some nl => pyStrip nl
        | none => ""
      let (fp, ln) := match window.findSome? (fun nl => searchRE reFileLine nl) with
        | some c => (capGet c 1, capGet c 2)
        | none => ("", "")
      let message := if msg = "" then "Test " ++ cls ++ "." ++ meth ++ " failed" else msg
      some (cls ++ "." ++ meth ++ ":" ++ fp ++ ":" ++ ln,
            ⟨cls, meth, message, fp, ln⟩)

/-- Pattern 2 body (lines 2107-2125). -/
def p2Candidate (lines : List String) (i : Nat) :
    Option (String × TestFailureRec) :=
  match searchRE reCompilerError (lines.getD i "") with
  | none => none
  | some caps =>
      let fp := capGet caps 1
      let ln := capGet caps 2
      let cls := capGet caps 3
      let meth := capGet caps 4
      some (cls ++ "." ++ meth ++ ":" ++ fp ++ ":" ++ ln,
            ⟨cls, meth, capGet caps 5, fp, ln⟩)

/-- Pattern 3 body (lines 2131-2168): try the file-location form, then the
bare form; back-fill class/method from the first of the 5 preceding lines
that mentions `Test Case` or `-[` and matches the name pattern. -/
def p3Candidate (lines : List String) (i : Nat) :
    Option (String × TestFailureRec) :=
  let parsed : Option (String × String × String) :=
    match searchRE reMarkerFile (lines.getD i "") with
    | some caps => some (capGet caps 1, capGet caps 2, capGet caps 3)
    | none =>
        match searchRE reMarkerAny (lines.getD i "") with
        | some caps => some ("", "", capGet caps 1)
        | none => none
  match parsed with
  | none => none
  | some (fp, ln, msg) =>
      let nameCaps := (lineRange (i - 5) i).findSome? (fun j =>
        let lj := lines.getD j ""
        if strContains lj "Test Case" || strContains lj "-[" then
          searchRE reName lj
        else none)
      let (cls, meth) := match nameCaps with
        | some c => (capGet c 1, capGet c 2)
        | none => ("", "")
      let clsU := if cls = "" then "Unknown" else cls
      let methU := if meth = "" then "Unknown" else meth
      some (clsU ++ "." ++ methU ++ ":" ++ fp ++ ":" ++ ln,
            ⟨clsU, methU, msg, fp, ln⟩)

/-- Pattern 4 body (lines 2173-2193): suite-level failure, message from the
first of the next ≤2 lines mentioning `Executed` and `failure`. -/
def p4Candidate (lines : List String) (i : Nat) :
    Option (String × TestFailureRec) :=
  match searchRE reSuiteFailed (lines.getD i "") with
  | none => none
  | some caps =>
      let cls := capGet caps 1
      let window := (lineRange (i + 1) (min (i + 3) lines.length)).map
        (fun j => lines.getD j "")
      let msg := match window.find? (fun lj =>
          strContains lj "Executed" && strContains lj "failure") with
        | some lj => pyStrip lj
        | none => "Test suite " ++ cls ++ " failed"
      some (cls ++ ".Suite", ⟨cls, "Suite", msg, "", ""⟩)

/-- Pattern 5 body (lines 2198-2232): generic assertion line; class/method
back-filled from the first of the 10 preceding lines mentioning `Test Case`
whose name pattern matches; recorded only when some context was found; the
dedup key additionally carries the first 50 characters of the message. -/
def p5Candidate (lines : List String) (i : Nat) :
    Option (String × TestFailureRec) :=
  let line := lines.getD i ""
  let msg := pyStrip line
  let nameCaps := (lineRange (i - 10) i).findSome? (fun j =>
    let lj := lines.getD j ""
    if strContains lj "Test Case" then searchRE reName lj else none)
  let (cls, meth) := match nameCaps with
    | some c => (capGet c 1, capGet c 2)
    | none => ("", "")
  let (fp, ln) := match searchRE reFileLine line with
    | some c => (capGet c 1, capGet c 2)
    | none => ("", "")
  if cls ≠ "" ∨ meth ≠ "" ∨ msg ≠ pyStrip line then
    let clsU := if cls = "" then "Unknown" else cls
    let methU := if meth = "" then "Unknown" else meth
    some (clsU ++ "." ++ methU ++ ":" ++ fp ++ ":" ++ ln ++ ":"
            ++ (⟨msg.data.take 50⟩ : String),
          ⟨clsU, methU, msg, fp, ln⟩)
  else none

/-- The `if/elif` pattern chain of the loop body (lines 2065-2232): at most
one candidate `(dedup key, record)` per line; a branch whose guard fires but
whose pattern fails produces nothing (later branches are NOT tried). -/
def lineCandidate (lines : List String) (i : Nat) :
    Option (String × TestFailureRec) :=
  let line := lines.getD i ""
  if strContains line "Test Case" && strContains line "failed" then
    p1Candidate lines i
  else if strContains line ": error: -[" then p2Candidate lines i
  else if strContains line "❌" then p3Candidate lines i
  else if strContains line "Test Suite" && strContains line "failed" then
    p4Candidate lines i
  else if (searchRE reXCTAssertFailed line).isSome then p5Candidate lines i
  else none

/-- One iteration of the `while i < len(lines)` loop over the state
`(seen_failures, failures)`: append the candidate record only when its key
is not yet in `seen_failures`. -/
def scanStep (lines : List String)
    (st : List String × List (String × TestFailureRec)) (i : Nat) :
    List String × List (String × TestFailureRec) :=
  match lineCandidate lines i with
  | none => st
  | some (k, r) => if k ∈ st.1 then st else (k :: st.1, st.2 ++ [(k, r)])

/-- The full scan (lines 2059-2234), keeping each record paired with the
dedup key under which it was recorded. -/
def scanKeyedFailures (lines : List String) :
    List (String × TestFailureRec) :=
  ((List.range lines.length).foldl (scanStep lines) ([], [])).2

/-- Fallback summary parse (lines 2240-2253): a line mentioning `Executed`
and `failure` that matches the summary pattern yields the test and failure
counts. -/
def summaryOf (line : String) : Option (String × String) :=
  if strContains line "Executed" && strContains line "failure" then
    match searchRE reSummary line with
    | some caps => some (capGet caps 1, capGet caps 2)
    | none => none
  else none

/-- The record synthesized from a summary line (lines 2246-2252). -/
def mkSummaryRec (testCount failureCount : String) : TestFailureRec :=
  ⟨"TestSuite", "Multiple",
   "Executed " ++ testCount ++ " tests with " ++ failureCount
     ++ " failures (details not available in log)", "", ""⟩

/-- The last-resort generic record (lines 2256-2263). -/
def genericFailureRec : TestFailureRec :=
  ⟨"Unknown", "Unknown",
   "Tests failed (specific details could not be extracted from log)", "", ""⟩

/-- `extract_test_failures_from_log`: scan, then — when no record was found
but the log signals failure — synthesize a summary or generic record. -/
def extract_test_failures_from_log (log : String) : List TestFailureRec :=
  if log = "" then []
  else
    let lines := pySplit log "\n"
    let failures := (scanKeyedFailures lines).map Prod.snd
    if failures.isEmpty
        && (strContains (pyLower log) "failed" || strContains log "❌") then
      match lines.findSome? summaryOf with
      | some s => [mkSummaryRec s.1 s.2]
      | none => [genericFailureRec]
    else failures

/-! ## `run_project_tests` parameter normalization

`src/xcode_mcp_server/tools/run_project_tests.py`, lines 54-77. -/

/-- The dynamically typed `tests_to_run` argument an MCP client may send. -/
inductive TestsParam where
  | pyNone
  | pyStr (s : String)
  | pyList (l : List String)
deriving DecidableEq

/-- Lines 56-66: normalize `tests_to_run`.  A string is stripped; when empty
or one of the sentinel texts it becomes `None` (run all tests); otherwise it
is split on commas, each segment stripped, empty segments dropped.  An empty
list (or other falsy value) becomes `None`. -/
def normalize_tests_to_run : TestsParam → Option (List String)
  | TestsParam.pyNone => none
  | TestsParam.pyStr s =>
      let s := pyStrip s
      if s = "" ∨ s ∈ ["[]", "null", "undefined", ""] then none
      else some (((pySplit s ",").map pyStrip).filter (· ≠ ""))
  | TestsParam.pyList l => if l = [] then none else some l

/-- Lines 71-77: the `-only-testing:` arguments handed to the test command;
`if tests_to_run:` skips both `None` and an empty list. -/
def build_test_args (p : TestsParam) : List String :=
  match normalize_tests_to_run p with
  | none => []
  | some l => l.map (fun testId => "-only-testing:" ++ testId)

/-! ## Claim theorems -/

/-- DerivedData model with two subdirectories matching project `Proj`: the
one listed first holds an older artifact, the second a newer one. -/
def twoDirFixture : List DerivedDir :=
  [⟨"Proj-aaa", some [⟨"old.xcresult", 100⟩], some [⟨"t1.xcresult", 100⟩]⟩,
   ⟨"Proj-bbb", some [⟨"new.xcresult", 200⟩], some [⟨"t2.xcresult", 200⟩]⟩]

/-- C2: with two matching subdirectories, both locators return the newest
artifact of the FIRST matching subdirectory (mtime 100) even though a
strictly newer artifact (mtime 200) exists in another matching
subdirectory, contradicting the claimed globally-newest selection. -/
theorem C2_first_match_shadows_newer_artifact :
    find_xcresult_for_project "Proj" twoDirFixture = some "Proj-aaa/old.xcresult"
      ∧ find_xcresult_bundle "Proj" twoDirFixture = some "Proj-aaa/t1.xcresult"
      ∧ (200, "Proj-bbb/new.xcresult")
          ∈ allMatchingEntries "Proj" (fun d => d.launchLogs) twoDirFixture
      ∧ (200 : Int) > 100 := by
  exact ⟨rfl, rfl, by decide, by norm_num⟩

/-- C3: when the AppleScript poll observes completion it replies
`"done|succeeded"`, but `run_project` recognizes completion only as the
literal `"true"`, so with no timestamp-valid xcresult it returns the
still-running message instead of the completed-without-logs message. -/
theorem C3_done_reply_reported_still_running :
    run_project_after_applescript (appleScriptRunReply true "succeeded") 5 none
      = RunProjectStep.returned
          "Still running after 5 seconds (status: succeeded). Try `get_runtime_output` after process exits."
      ∧ run_project_after_applescript "true|succeeded" 5 none
          = RunProjectStep.returned
              "Run completed with status: succeeded. Could not find xcresult file (modified after start time) to extract console logs." := by
  exact ⟨rfl, rfl⟩

/-- C4: `run_project` invokes the extraction with its positional arguments
transposed, so the `max_lines` parameter receives the caller's
`regex_filter` and vice versa; on a two-item console the actual call fails
with a dynamic-type error, while the same call with the arguments in the
claimed order returns the console text capped at 20 lines. -/
theorem C4_extract_invoked_with_transposed_arguments :
    run_project_invoke_extract ["hello", "world"] PyVal.vNone 20
        (fun _ _ => Except.ok true)
      = Except.ok (false,
          "Error processing console logs: 'int' object has no attribute 'strip'")
      ∧ processConsole ["hello", "world"] (PyVal.vInt 20) PyVal.vNone
            (fun _ _ => Except.ok true)
          = Except.ok (true, "hello\nworld") := by
  exact ⟨rfl, rfl⟩

/-- Model of `re.search` for the syntactically invalid pattern `"["`:
CPython raises `re.error("unterminated character set at position 0")`. -/
def invalidBracketSearch : ReSearch := fun pat _ =>
  if pat = "[" then Except.error "unterminated character set at position 0"
  else Except.ok true

/-- C5: an invalid non-empty regex filter does NOT propagate
`InvalidParameterError`; the blanket `except Exception` handler converts it
into the same `(False, message)` channel used for extraction failures. -/
theorem C5_invalid_regex_not_propagated :
    processConsole ["hello"] (PyVal.vInt 100) (PyVal.vStr "[") invalidBracketSearch
      = Except.ok (false,
          "Error processing console logs: Invalid regex pattern: unterminated character set at position 0") := by
  rfl

/-- C1: a path returned by the timestamp-bounded locator always comes from
an observation whose creation AND modification times are both at or after
the start timestamp (so a candidate with an older creation time is never
returned, whatever its modification time), and when every observed
candidate fails that check the result is `none` — a value, not an
exception. -/
theorem C1_timestamp_bounded_locator (T : Int) (trace : List PollObs) :
    (∀ p, wait_for_xcresult_after_timestamp T trace = some p →
        ∃ ct mt, PollObs.file p ct mt ∈ trace ∧ T ≤ ct ∧ T ≤ mt)
      ∧ ((∀ p ct mt, PollObs.file p ct mt ∈ trace → ct < T ∨ mt < T) →
        wait_for_xcresult_after_timestamp T trace = none) := by
  induction trace with
  | nil =>
      exact ⟨fun p h => by simp [wait_for_xcresult_after_timestamp] at h,
             fun _ => rfl⟩
  | cons obs rest ih =>
      cases obs with
      | noFile =>
          refine ⟨fun p h => ?_, fun h => ?_⟩
          · obtain ⟨ct, mt, hmem, h1, h2⟩ := ih.1 p h
            exact ⟨ct, mt, List.mem_cons_of_mem _ hmem, h1, h2⟩
          · exact ih.2 fun p ct mt hmem => h p ct mt (List.mem_cons_of_mem _ hmem)
      | file q ct mt =>
          by_cases hv : T ≤ ct ∧ T ≤ mt
          · refine ⟨fun p h => ?_, fun h => ?_⟩
            · have hqp : some q = some p := by
                simpa [wait_for_xcresult_after_timestamp, hv] using h
              obtain rfl := Option.some.inj hqp
              exact ⟨ct, mt, List.mem_cons_self _ _, hv.1, hv.2⟩
            · rcases h q ct mt (List.mem_cons_self _ _) with h1 | h1 <;> omega
          · refine ⟨fun p h => ?_, fun h => ?_⟩
            · have h' : wait_for_xcresult_after_timestamp T rest = some p := by
                simpa [wait_for_xcresult_after_timestamp, hv] using h
              obtain ⟨ct', mt', hmem, h1, h2⟩ := ih.1 p h'
              exact ⟨ct', mt', List.mem_cons_of_mem _ hmem, h1, h2⟩
            · simpa [wait_for_xcresult_after_timestamp, hv] using
                ih.2 fun p ct' mt' hmem => h p ct' mt' (List.mem_cons_of_mem _ hmem)

/-- Witness for C1: with the stale candidate (created at 5, before start
time 10, though modified at 20) observed first, the locator skips it and
returns the fresh one; on a trace holding only the stale candidate it
returns `none`. -/
theorem C1_timestamp_bounded_locator_witness :
    wait_for_xcresult_after_timestamp 10
        [PollObs.file "stale" 5 20, PollObs.file "fresh" 12 15] = some "fresh"
      ∧ (∃ ct mt,
          PollObs.file "fresh" ct mt
              ∈ [PollObs.file "stale" 5 20, PollObs.file "fresh" 12 15]
            ∧ (10 : Int) ≤ ct ∧ (10 : Int) ≤ mt)
      ∧ wait_for_xcresult_after_timestamp 10 [PollObs.file "stale" 5 20] = none :=
  ⟨rfl,
   (C1_timestamp_bounded_locator 10 _).1 "fresh" rfl,
   (C1_timestamp_bounded_locator 10 _).2 (by
      intro p ct mt hmem
      simp only [List.mem_singleton, PollObs.file.injEq] at hmem
      obtain ⟨-, rfl, rfl⟩ := hmem
      left; decide)⟩

/-- C10: a string-typed `tests_to_run` that strips to the empty string or a
sentinel text runs all tests (no `-only-testing:` arguments), as does an
empty list; any other string is split on commas with empty segments
dropped, each identifier becoming one `-only-testing:` argument. -/
theorem C10_tests_param_handling (s : String) :
    ((pyStrip s = "" ∨ pyStrip s ∈ (["[]", "null", "undefined"] : List String)) →
        normalize_tests_to_run (TestsParam.pyStr s) = none
          ∧ build_test_args (TestsParam.pyStr s) = [])
      ∧ (pyStrip s ≠ "" → pyStrip s ∉ (["[]", "null", "undefined"] : List String) →
        normalize_tests_to_run (TestsParam.pyStr s)
            = some (((pySplit (pyStrip s) ",").map pyStrip).filter (· ≠ ""))
          ∧ build_test_args (TestsParam.pyStr s)
            = (((pySplit (pyStrip s) ",").map pyStrip).filter (· ≠ "")).map
                (fun t => "-only-testing:" ++ t))
      ∧ normalize_tests_to_run (TestsParam.pyList []) = none
      ∧ build_test_args (TestsParam.pyList []) = [] := by
  refine ⟨fun h => ?_, fun h1 h2 => ?_, rfl, rfl⟩
  · have hcond : pyStrip s = "" ∨ pyStrip s ∈ ["[]", "null", "undefined", ""] := by
      rcases h with h | h
      · exact Or.inl h
      · right
        simp only [List.mem_cons, List.not_mem_nil, or_false] at h ⊢
        tauto
    have hn : normalize_tests_to_run (TestsParam.pyStr s) = none := by
      simp only [normalize_tests_to_run]
      rw [if_pos hcond]
    exact ⟨hn, by simp [build_test_args, hn]⟩
  · have hcond : ¬ (pyStrip s = "" ∨ pyStrip s ∈ ["[]", "null", "undefined", ""]) := by
      rintro (hc | hc)
      · exact h1 hc
      · simp only [List.mem_cons, List.not_mem_nil, or_false] at hc h2
        rcases hc with hc | hc | hc | hc
        · exact h2 (Or.inl hc)
        · exact h2 (Or.inr (Or.inl hc))
        · exact h2 (Or.inr (Or.inr hc))
        · exact h1 hc
    have hn : normalize_tests_to_run (TestsParam.pyStr s)
        = some (((pySplit (pyStrip s) ",").map pyStrip).filter (· ≠ "")) := by
      simp only [normalize_tests_to_run]
      rw [if_neg hcond]
    exact ⟨hn, by simp [build_test_args, hn]⟩

/-- Witness for C10: a comma list with whitespace and empty segments yields
one `-only-testing:` argument per identifier; the sentinel `"[]"` yields
none. -/
theorem C10_tests_param_handling_witness :
    build_test_args (TestsParam.pyStr " A/B/c, D/E/f ,, ")
        = ["-only-testing:A/B/c", "-only-testing:D/E/f"]
      ∧ build_test_args (TestsParam.pyStr " [] ") = [] := by
  constructor
  · have h := (C10_tests_param_handling " A/B/c, D/E/f ,, ").2.1
      (by decide) (by decide)
    exact h.2.trans (by decide)
  · exact ((C10_tests_param_handling " [] ").1 (Or.inr (by decide))).2

/-- Unfolding of one CLI retry iteration. -/
theorem cliRetryGo_succ (outcomes : Nat → CLIOutcome) (attempt r : Nat) :
    cliRetryGo outcomes attempt (r + 1) =
      match outcomes attempt with
      | CLIOutcome.success out => CliPhaseResult.proceed out attempt
      | CLIOutcome.failure stderr =>
          if strContains stderr "root ID is missing" ∧ attempt < 6 then
            cliRetryGo outcomes (attempt + 1) r
          else
            CliPhaseResult.earlyFailure
              ("Failed to extract console logs: " ++ stderr)
      | CLIOutcome.timeout =>
          if attempt < 6 then cliRetryGo outcomes (attempt + 1) r
          else CliPhaseResult.earlyFailure "Timeout extracting console logs"
      | CLIOutcome.exn e =>
          if attempt < 6 then cliRetryGo outcomes (attempt + 1) r
          else
            CliPhaseResult.earlyFailure
              ("Error extracting console logs: " ++ e) := rfl

/-- Loop invariant: when the retry loop starting at `attempt` breaks out
with attempt `k`, then `k` is in range, the `k`-th invocation succeeded,
and every invocation from `attempt` up to `k` was retriable. -/
theorem cliRetryGo_proceed_spec (outcomes : Nat → CLIOutcome) :
    ∀ (remaining attempt : Nat) (out : String) (k : Nat),
      attempt + remaining = 7 →
      cliRetryGo outcomes attempt remaining = CliPhaseResult.proceed out k →
      attempt ≤ k ∧ k < 7 ∧ outcomes k = CLIOutcome.success out
        ∧ ∀ j, attempt ≤ j → j < k → retriableOutcome (outcomes j) := by
  intro remaining
  induction remaining with
  | zero =>
      intro attempt out k _ hres
      simp [cliRetryGo] at hres
  | succ r ih =>
      intro attempt out k h7 hres
      rw [cliRetryGo_succ] at hres
      cases ho : outcomes attempt with
      | success o =>
          rw [ho] at hres
          simp only [CliPhaseResult.proceed.injEq] at hres
          obtain ⟨rfl, rfl⟩ := hres
          exact ⟨le_refl _, by omega, ho, fun j h1 h2 => absurd h2 (by omega)⟩
      | failure stderr =>
          rw [ho] at hres
          simp only at hres
          by_cases hc : strContains stderr "root ID is missing" = true ∧ attempt < 6
          · rw [if_pos (by exact_mod_cast hc)] at hres
            obtain ⟨h1, h2, h3, h4⟩ := ih (attempt + 1) out k (by omega) hres
            refine ⟨by omega, h2, h3, fun j hj1 hj2 => ?_⟩
            rcases Nat.eq_or_lt_of_le hj1 with rfl | hlt
            · simp [retriableOutcome, ho, hc.1]
            · exact h4 j (by omega) hj2
          · rw [if_neg (by exact_mod_cast hc)] at hres
            simp at hres
      | timeout =>
          rw [ho] at hres
          simp only at hres
          by_cases hc : attempt < 6
          · rw [if_pos hc] at hres
            obtain ⟨h1, h2, h3, h4⟩ := ih (attempt + 1) out k (by omega) hres
            refine ⟨by omega, h2, h3, fun j hj1 hj2 => ?_⟩
            rcases Nat.eq_or_lt_of_le hj1 with rfl | hlt
            · simp [retriableOutcome, ho]
            · exact h4 j (by omega) hj2
          · rw [if_neg hc] at hres
            simp at hres
      | exn e =>
          rw [ho] at hres
          simp only at hres
          by_cases hc : attempt < 6
          · rw [if_pos hc] at hres
            obtain ⟨h1, h2, h3, h4⟩ := ih (attempt + 1) out k (by omega) hres
            refine ⟨by omega, h2, h3, fun j hj1 hj2 => ?_⟩
            rcases Nat.eq_or_lt_of_le hj1 with rfl | hlt
            · simp [retriableOutcome, ho]
            · exact h4 j (by omega) hj2
          · rw [if_neg hc] at hres
            simp at hres

/-- Reachability: when every invocation before `k` is retriable, the retry
loop reaches attempt `k`. -/
theorem cliRetryGo_reach (outcomes : Nat → CLIOutcome) :
    ∀ (k : Nat), k < 7 →
      (∀ j, j < k → retriableOutcome (outcomes j)) →
      cliRetryPhase outcomes = cliRetryGo outcomes k (7 - k) := by
  intro k
  induction k with
  | zero => intro _ _; rfl
  | succ n ih =>
      intro hk hpre
      have h1 : cliRetryPhase outcomes = cliRetryGo outcomes n (7 - n) :=
        ih (by omega) (fun j hj => hpre j (by omega))
      have h2 : 7 - n = (7 - (n + 1)) + 1 := by omega
      rw [h1, h2, cliRetryGo_succ]
      have hr := hpre n (by omega)
      cases ho : outcomes n with
      | success o => rw [ho] at hr; exact absurd hr (by simp [retriableOutcome])
      | failure stderr =>
          rw [ho] at hr
          simp only [retriableOutcome] at hr
          simp [hr, show n < 6 by omega]
      | timeout =>
          simp [show n < 6 by omega]
      | exn e =>
          simp [show n < 6 by omega]

/-- C7 (counterexample): the claim "a retry happens only after a non-zero
exit whose stderr carries the root-ID signature" is false: a CLI timeout on
the first attempt is also retried (here attempt 1 then succeeds). -/
theorem C7_counterexample :
    ¬ (∀ (outcomes : Nat → CLIOutcome) (out : String) (k : Nat),
        cliRetryPhase outcomes = CliPhaseResult.proceed out k →
          ∀ j, j < k → ∃ stderr, outcomes j = CLIOutcome.failure stderr
            ∧ strContains stderr "root ID is missing" = true) := by
  intro h
  obtain ⟨stderr, hs, -⟩ :=
    h (fun n => if n = 0 then CLIOutcome.timeout else CLIOutcome.success "ok")
      "ok" 1 rfl 0 (by decide)
  simp at hs

/-- C7 (amended): the loop makes at most 7 attempts; it retries after a
root-ID-signature failure AND also after a timeout or other exception; a
non-zero exit without the signature, reached after retriable attempts, is a
terminal failure returned immediately; a success on any reached attempt
yields that attempt's output. -/
theorem C7_retry_policy (outcomes : Nat → CLIOutcome) :
    (∀ out k, cliRetryPhase outcomes = CliPhaseResult.proceed out k →
        k < 7 ∧ outcomes k = CLIOutcome.success out
          ∧ ∀ j, j < k → retriableOutcome (outcomes j))
      ∧ (∀ k stderr, k < 7 →
          (∀ j, j < k → retriableOutcome (outcomes j)) →
          outcomes k = CLIOutcome.failure stderr →
          strContains stderr "root ID is missing" = false →
          cliRetryPhase outcomes
            = CliPhaseResult.earlyFailure
                ("Failed to extract console logs: " ++ stderr))
      ∧ (∀ k out, k < 7 →
          (∀ j, j < k → retriableOutcome (outcomes j)) →
          outcomes k = CLIOutcome.success out →
          cliRetryPhase outcomes = CliPhaseResult.proceed out k) := by
  refine ⟨fun out k hres => ?_, fun k stderr hk hpre hfail hsig => ?_,
          fun k out hk hpre hsucc => ?_⟩
  · obtain ⟨-, h2, h3, h4⟩ :=
      cliRetryGo_proceed_spec outcomes 7 0 out k (by omega) hres
    exact ⟨h2, h3, fun j hj => h4 j (Nat.zero_le j) hj⟩
  · rw [cliRetryGo_reach outcomes k hk hpre,
        show 7 - k = (7 - (k + 1)) + 1 by omega, cliRetryGo_succ, hfail]
    simp only
    rw [if_neg (by simp [hsig])]
  · rw [cliRetryGo_reach outcomes k hk hpre,
        show 7 - k = (7 - (k + 1)) + 1 by omega, cliRetryGo_succ, hsucc]

/-- Attempt outcomes for the C7 witness: signature failures on attempts 0
and 1, success on attempt 2. -/
def c7Outcomes : Nat → CLIOutcome := fun n =>
  if n < 2 then CLIOutcome.failure "Error: root ID is missing in database"
  else CLIOutcome.success "console json"

/-- Witness for C7: two root-ID failures then a success make the loop
return the third attempt's output. -/
theorem C7_retry_policy_witness :
    cliRetryPhase c7Outcomes = CliPhaseResult.proceed "console json" 2
      ∧ (2 < 7 ∧ c7Outcomes 2 = CLIOutcome.success "console json"
          ∧ ∀ j, j < 2 → retriableOutcome (c7Outcomes j)) :=
  ⟨rfl, (C7_retry_policy c7Outcomes).1 "console json" 2 rfl⟩

/-- Error lines of a build log under an effective warnings setting. -/
def buildErrLines (log : String) (sw : Bool) : List String :=
  (classifyBuildLines sw (pySplit log "\n")).1

/-- Warning lines of a build log under an effective warnings setting. -/
def buildWarnLines (log : String) (sw : Bool) : List String :=
  (classifyBuildLines sw (pySplit log "\n")).2

/-- C6: the report displays at most 25 lines, all error lines precede all
warning lines, warnings are displayed only in the capacity errors leave
free (none when 25 or more errors exist, otherwise exactly
`min totalWarnings (25 - totalErrors)`), and the returned message is built
from the TRUE total counts even when the display is truncated. -/
theorem C6_display_cap_and_true_totals (log : String)
    (iw forced : Option Bool) (enabled : Bool) (sw : Bool)
    (hsw : sw = resolveShowWarnings forced iw enabled) :
    (displayedBuildLines log sw).length ≤ 25
      ∧ displayedBuildLines log sw
          = (buildErrLines log sw).take 25
            ++ (buildWarnLines log sw).take (25 - (buildErrLines log sw).length)
      ∧ ((buildErrLines log sw).length ≥ 25 →
          displayedBuildLines log sw = (buildErrLines log sw).take 25)
      ∧ ((buildErrLines log sw).length < 25 →
          (displayedBuildLines log sw).length
            = (buildErrLines log sw).length
              + min (buildWarnLines log sw).length
                  (25 - (buildErrLines log sw).length))
      ∧ extract_build_errors_and_warnings log iw forced enabled
          = buildCountMessage (buildErrLines log sw).length
              (buildWarnLines log sw).length
              (min (buildErrLines log sw).length 25)
              (if (buildErrLines log sw).length ≥ 25 then 0
               else min (buildWarnLines log sw).length
                      (25 - (buildErrLines log sw).length))
              (String.intercalate "\n" (displayedBuildLines log sw)) := by
  subst hsw
  set sw := resolveShowWarnings forced iw enabled
  set errs := buildErrLines log sw with herrs
  set warns := buildWarnLines log sw with hwarns
  set displayed := displayedBuildLines log sw with hdisplayed
  have hdisp : displayed = (errs ++ warns).take 25 := rfl
  have htake : (if (errs ++ warns).length > 25 then (errs ++ warns).take 25
      else errs ++ warns) = (errs ++ warns).take 25 := by
    split
    · rfl
    · exact (List.take_of_length_le (by omega)).symm
  refine ⟨?_, ?_, ?_, ?_, ?_⟩
  · rw [hdisp, List.length_take]; omega
  · rw [hdisp, List.take_append_eq_append_take]
  · intro h
    rw [hdisp, List.take_append_eq_append_take,
        show 25 - errs.length = 0 by omega]
    simp
  · intro h
    rw [hdisp, List.take_append_eq_append_take, List.length_append,
        List.take_of_length_le (show errs.length ≤ 25 by omega),
        List.length_take]
    omega
  · show buildCountMessage errs.length warns.length (min errs.length 25)
        (if errs.length ≥ 25 then 0 else min warns.length (25 - errs.length))
        (String.intercalate "\n"
          (if (errs ++ warns).length > 25 then (errs ++ warns).take 25
           else errs ++ warns))
      = _
    rw [htake, hdisp]

/-- Log with 26 error lines, for the saturated-cap case of C6. -/
def errOnlyLog : String :=
  String.intercalate "\n" (List.replicate 26 "error: x")

/-- Log with one error line and one warning line (the specification's
scenario A). -/
def mixedLog : String :=
  "foo.swift:3: error: bad\nbar.swift:4: warning: unused"

set_option maxRecDepth 4000 in
/-- Witness for C6: with 26 error lines the display is the first 25 errors
and no warnings; with one error and one warning both are shown, error
first. -/
theorem C6_display_cap_and_true_totals_witness :
    displayedBuildLines errOnlyLog true
        = ((classifyBuildLines true (pySplit errOnlyLog "\n")).1).take 25
      ∧ (displayedBuildLines mixedLog true).length = 1 + min 1 (25 - 1)
      ∧ extract_build_errors_and_warnings mixedLog none none true
          = "Build failed with 1 error(s) and 1 warning(s).\nfoo.swift:3: error: bad\nbar.swift:4: warning: unused" :=
  ⟨(C6_display_cap_and_true_totals errOnlyLog none none true true rfl).2.2.1
     (by decide),
   (C6_display_cap_and_true_totals mixedLog none none true true rfl).2.2.2.1
     (by decide),
   ((C6_display_cap_and_true_totals mixedLog none none true true rfl).2.2.2.2).trans
     (by decide)⟩

/-- C8: when the scan finds no structured failure but the log signals
failure (the word `failed` case-insensitively or the marker glyph), the
extractor never returns an empty list: it returns the record synthesized
from the first parsable `Executed N tests, with M failures` line when one
exists, and the generic failure record otherwise. -/
theorem C8_fallback_guarantee (log : String) (h0 : log ≠ "")
    (hscan : scanKeyedFailures (pySplit log "\n") = [])
    (hmark : strContains (pyLower log) "failed" = true
      ∨ strContains log "❌" = true) :
    extract_test_failures_from_log log ≠ []
      ∧ (∀ s, (pySplit log "\n").findSome? summaryOf = some s →
          extract_test_failures_from_log log = [mkSummaryRec s.1 s.2])
      ∧ ((∀ line ∈ pySplit log "\n", summaryOf line = none) →
          extract_test_failures_from_log log = [genericFailureRec]) := by
  have hne : extract_test_failures_from_log log
      = match (pySplit log "\n").findSome? summaryOf with
        | some s => [mkSummaryRec s.1 s.2]
        | none => [genericFailureRec] := by
    unfold extract_test_failures_from_log
    rw [if_neg h0]
    dsimp only
    rw [hscan]
    rcases hmark with h | h <;> simp [h]
  refine ⟨?_, fun s hs => ?_, fun hall => ?_⟩
  · rw [hne]
    cases hfs : (pySplit log "\n").findSome? summaryOf <;> simp
  · rw [hne, hs]
  · rw [hne, List.findSome?_eq_none_iff.mpr hall]

/-- Witness for C8: a log carrying only the word `failed` produces the
generic record (and hence a non-empty result). -/
theorem C8_fallback_guarantee_witness :
    extract_test_failures_from_log "something failed badly"
        = [genericFailureRec]
      ∧ extract_test_failures_from_log "something failed badly" ≠ [] := by
  have h := C8_fallback_guarantee "something failed badly" (by decide)
    (by decide) (Or.inl (by decide))
  exact ⟨h.2.2 (by decide), h.1⟩

/-- Log with two textually distinct assertion lines referring to the same
test (same class, method, empty file and line). -/
def twoAssertLog : String :=
  "Test Case -[Foo bar] started\nXCTAssertTrue failed - alpha\nXCTAssertTrue failed - beta"

/-- C9 (counterexample): two distinct pattern-5 assertion lines with the
SAME `(class, method, file, line)` tuple produce TWO records, because the
pattern-5 dedup key also contains the first 50 characters of the message;
the claim of exactly one record per `(class, method, file, line)` key is
therefore false. -/
theorem C9_counterexample :
    (extract_test_failures_from_log twoAssertLog).map
        (fun r => (r.test_class, r.test_method, r.file_path, r.line_number))
      = [("Foo", "bar", "", ""), ("Foo", "bar", "", "")]
      ∧ (extract_test_failures_from_log twoAssertLog).map
          (fun r => r.message)
        = ["XCTAssertTrue failed - alpha", "XCTAssertTrue failed - beta"] := by
  exact ⟨by decide, by decide⟩

/-- Fold invariant of the scan: dedup keys of recorded failures are
pairwise distinct and all of them are registered in `seen`. -/
theorem scanFold_invariant (lines : List String) :
    ∀ (idxs : List Nat) (st : List String × List (String × TestFailureRec)),
      (st.2.map Prod.fst).Nodup →
      (∀ k, k ∈ st.2.map Prod.fst → k ∈ st.1) →
      ((idxs.foldl (scanStep lines) st).2.map Prod.fst).Nodup
        ∧ ∀ k, k ∈ (idxs.foldl (scanStep lines) st).2.map Prod.fst →
            k ∈ (idxs.foldl (scanStep lines) st).1 := by
  intro idxs
  induction idxs with
  | nil => exact fun st h1 h2 => ⟨h1, h2⟩
  | cons i rest ih =>
      intro st h1 h2
      simp only [List.foldl_cons]
      apply ih
      · unfold scanStep
        cases hc : lineCandidate lines i with
        | none => exact h1
        | some kr =>
            obtain ⟨k, r⟩ := kr
            by_cases hmem : k ∈ st.1
            · simp only [if_pos hmem]
              exact h1
            · simp only [if_neg hmem, List.map_append, List.map_cons,
                List.map_nil]
              rw [List.nodup_append]
              refine ⟨h1, List.nodup_singleton k, ?_⟩
              intro a ha hb
              simp only [List.mem_singleton] at hb
              subst hb
              exact hmem (h2 a ha)
      · unfold scanStep
        cases hc : lineCandidate lines i with
        | none => exact h2
        | some kr =>
            obtain ⟨k, r⟩ := kr
            by_cases hmem : k ∈ st.1
            · simp only [if_pos hmem]
              exact h2
            · simp only [if_neg hmem, List.map_append, List.map_cons,
                List.map_nil]
              intro a ha
              rw [List.mem_append] at ha
              rcases ha with ha | ha
              · exact List.mem_cons_of_mem _ (h2 a ha)
              · simp only [List.mem_singleton] at ha
                subst ha
                exact List.mem_cons_self _ _

/-- C9 (amended): the scanner emits at most one record per dedup key — the
key being `class.method:file:line` for patterns 1-3, `class.Suite` for
pattern 4, and `class.method:file:line:message-prefix` (first 50 message
characters) for pattern 5 — so the keys of the recorded failures are
pairwise distinct for every log. -/
theorem C9_dedup_key_unique (lines : List String) :
    ((scanKeyedFailures lines).map Prod.fst).Nodup :=
  (scanFold_invariant lines (List.range lines.length) ([], [])
    (by simp) (by simp)).1

end XcodeMCP
